import Mathlib

/-!
Verification of the generation-progress tracking and batch-orchestration core of
FgG ArtAssist (`fgg_art_assist.py`).

Python floats are modelled as rationals (`ℚ`): every constant appearing in the
progress logic (0.05, 0.5, 10.0, 99.0, 100.0) and every example input of the
specification is an exact decimal, so the rational model agrees with the float
code on all quantities these claims speak about.  The JSON integers
`job_no` / `job_count` of the status endpoint are modelled as `ℤ` (the code
replaces a missing or zero field by its default via `or`, which is the identity
on the nonzero integers actually compared here).
-/

namespace FggArt

/-- The value of the global `CURRENT_TASK` while a batch runs: which pipeline is
active.  `CURRENT_TASK` itself is `Option Task`, `none` meaning idle. -/
inductive Task where
  | cleanup
  | faceFix
  deriving DecidableEq

/-! ## Job Status Normalizer (`poll_status`, progress computation) -/

/-- Guard against a stale nonzero `job_no` right after submission
(`poll_status`, "修正1"): on the first image of the batch
(`CURRENT_BATCH_INDEX == 0`) with `api_progress < 0.05` and `job_no > 0`,
the reported stage index is replaced by `0`. -/
def guardJobNo (currentBatchIndex : ℕ) (apiProgress : ℚ) (jobNo : ℤ) : ℤ :=
  if currentBatchIndex = 0 ∧ apiProgress < 0.05 ∧ 0 < jobNo then 0 else jobNo

/-- Face-fix branch of the per-image progress computation (`poll_status`):
`0` while still in stage 0, otherwise the refinement stage is mapped onto the
back half of the external fraction scale, `(api_progress - 0.5) / 0.5`.
This is the value before the final clamp to `[0, 1]`. -/
def faceFixImageProgress (jobNo : ℤ) (apiProgress : ℚ) : ℚ :=
  if jobNo = 0 then 0 else (apiProgress - 0.5) / 0.5

/-- Non-face-fix branch of the per-image progress computation (`poll_status`):
`actual_job_count = max(job_count, EXPECTED_JOB_COUNT)`,
`safe_job_no = min(job_no, actual_job_count - 1)`,
progress `(safe_job_no + api_progress) / max(1, actual_job_count)`.
This is the value before the final clamp to `[0, 1]`. -/
def otherImageProgress (jobNo jobCount expectedJobCount : ℤ) (apiProgress : ℚ) : ℚ :=
  let actualJobCount := max jobCount expectedJobCount
  let safeJobNo := min jobNo (actualJobCount - 1)
  ((safeJobNo : ℚ) + apiProgress) / ((max 1 actualJobCount : ℤ) : ℚ)

/-- `max(0.0, min(1.0, x))`, the final clamp the normalizer applies. -/
def clamp01 (x : ℚ) : ℚ :=
  max 0 (min 1 x)

/-- The full Job Status Normalizer of `poll_status`: apply the first-image
stale-index guard, branch on the active pipeline, clamp the result to
`[0, 1]`.  Produces `current_image_progress`. -/
def imageProgress (task : Task) (currentBatchIndex : ℕ) (expectedJobCount : ℤ)
    (apiProgress : ℚ) (jobNo jobCount : ℤ) : ℚ :=
  let jn := guardJobNo currentBatchIndex apiProgress jobNo
  let raw :=
    match task with
    | Task.faceFix => faceFixImageProgress jn apiProgress
    | Task.cleanup => otherImageProgress jn jobCount expectedJobCount apiProgress
  clamp01 raw

/-! ## Batch Progress Aggregator (`poll_status`, anti-regression logic) -/

/-- `raw_percent = (CURRENT_BATCH_INDEX + current_image_progress)
/ max(1, TOTAL_BATCH_COUNT) * 100.0`. -/
def rawPercent (currentBatchIndex : ℕ) (imageProg : ℚ) (totalBatchCount : ℕ) : ℚ :=
  ((currentBatchIndex : ℚ) + imageProg) / ((max 1 totalBatchCount : ℕ) : ℚ) * 100

/-- The anti-regression acceptance step of `poll_status` ("逆行防止ロジック"):
on the same image (`LAST_BATCH_INDEX == CURRENT_BATCH_INDEX`), a drop of the
raw percent below the last displayed percent is kept out of the display when
the drop is less than 10 points, and accepted when it is 10 points or more;
a rise, or a new image, is always accepted. -/
def acceptPercent (lastBatchIndex : ℤ) (currentBatchIndex : ℕ)
    (lastProgress rawP : ℚ) : ℚ :=
  if lastBatchIndex = (currentBatchIndex : ℤ) then
    if rawP < lastProgress then
      if lastProgress - rawP < 10 then lastProgress else rawP
    else rawP
  else rawP

/-- `display_percent = min(99.0, max(0.0, current_percent))`, the value stored
back into `LAST_PROGRESS` and rendered. -/
def displayPercent (currentPercent : ℚ) : ℚ :=
  min 99 (max 0 currentPercent)

/-! ## Claims about the Normalizer and the Aggregator -/

/-- Claim C1: anti-regression rule of the Batch Progress Aggregator.  While
polling the same image index, a newly computed raw percent below the last
displayed percent is discarded (the previous value is kept) when the drop is
strictly below 10.0 points, and accepted when the drop is 10.0 points or more. -/
theorem antiRegressionSmoothing (lastBatchIndex : ℤ) (currentBatchIndex : ℕ)
    (lastProgress rawP : ℚ)
    (hsame : lastBatchIndex = (currentBatchIndex : ℤ)) (hdrop : rawP < lastProgress) :
    (lastProgress - rawP < 10 →
      acceptPercent lastBatchIndex currentBatchIndex lastProgress rawP = lastProgress) ∧
    (10 ≤ lastProgress - rawP →
      acceptPercent lastBatchIndex currentBatchIndex lastProgress rawP = rawP) := by
  unfold acceptPercent
  rw [if_pos hsame, if_pos hdrop]
  constructor
  · intro h
    rw [if_pos h]
  · intro h
    rw [if_neg (not_lt.mpr h)]

/-- Witness for C1: with `last_known_percent = 40.0` the displayed percent
stays `40.0` for `raw_percent = 35.0` (delta 5 < 10) and becomes `20.0` for
`raw_percent = 20.0` (delta 20 ≥ 10). -/
theorem antiRegressionSmoothingWitness :
    displayPercent (acceptPercent 0 0 40 35) = 40 ∧
    displayPercent (acceptPercent 0 0 40 20) = 20 := by
  have h1 := (antiRegressionSmoothing 0 0 40 35 (by norm_num) (by norm_num)).1 (by norm_num)
  have h2 := (antiRegressionSmoothing 0 0 40 20 (by norm_num) (by norm_num)).2 (by norm_num)
  rw [h1, h2]
  constructor <;> norm_num [displayPercent]

/-- Claim C2: for every poll input and every active pipeline, the per-image
progress produced by the Job Status Normalizer lies in `[0, 1]` (the code
clamps with `max(0.0, min(1.0, _))` in all cases). -/
theorem normalizerOutputBounded (task : Task) (currentBatchIndex : ℕ)
    (expectedJobCount : ℤ) (apiProgress : ℚ) (jobNo jobCount : ℤ) :
    0 ≤ imageProgress task currentBatchIndex expectedJobCount apiProgress jobNo jobCount ∧
    imageProgress task currentBatchIndex expectedJobCount apiProgress jobNo jobCount ≤ 1 := by
  unfold imageProgress clamp01
  exact ⟨le_max_left 0 _, max_le (by norm_num) (min_le_left 1 _)⟩

/-- Claim C3: face-fix stage mapping.  The stage-mapped value (the computation
of the face-fix branch, before the final clamp) is `0` whenever the stage
index is `0` and `(overall_fraction - 0.5) / 0.5` whenever it is nonzero;
through the full normalizer, `overall_fraction = 0.5` at stage 1 gives `0`,
`1.0` at stage 1 gives `1`, and `0.3` at stage 0 gives `0`. -/
theorem faceFixStageMapping (jobNo : ℤ) (apiProgress : ℚ) :
    (jobNo = 0 → faceFixImageProgress jobNo apiProgress = 0) ∧
    (jobNo ≠ 0 → faceFixImageProgress jobNo apiProgress = (apiProgress - 0.5) / 0.5) ∧
    imageProgress Task.faceFix 0 2 0.5 1 2 = 0 ∧
    imageProgress Task.faceFix 0 2 1 1 2 = 1 ∧
    imageProgress Task.faceFix 0 2 0.3 0 2 = 0 := by
  refine ⟨fun h => by rw [faceFixImageProgress, if_pos h],
          fun h => by rw [faceFixImageProgress, if_neg h], ?_, ?_, ?_⟩ <;>
    norm_num [imageProgress, guardJobNo, faceFixImageProgress, clamp01, min_def, max_def]

/-- Witness for C3: at stage 1 with `overall_fraction = 1` the stage-mapped
value is `(1 - 0.5) / 0.5`. -/
theorem faceFixStageMappingWitness :
    faceFixImageProgress 1 1 = ((1 : ℚ) - 0.5) / 0.5 :=
  (faceFixStageMapping 1 1).2.1 one_ne_zero

/-- Claim C4: for non-face-fix pipelines with a scheduled stage count of at
least 1 (the orchestrator always sets `EXPECTED_JOB_COUNT` to 1, 2 or 3), the
normalizer computes `(min(job_no, eff - 1) + overall_fraction) / eff` with
`eff = max(job_count, EXPECTED_JOB_COUNT)`; in particular
`job_count = 1, EXPECTED_JOB_COUNT = 3, job_no = 2, overall_fraction = 0.5`
gives `2.5 / 3`. -/
theorem effectiveStageCountFormula (jobNo jobCount expectedJobCount : ℤ)
    (apiProgress : ℚ) (hexp : 1 ≤ expectedJobCount) :
    otherImageProgress jobNo jobCount expectedJobCount apiProgress =
      (((min jobNo (max jobCount expectedJobCount - 1) : ℤ) : ℚ) + apiProgress) /
        ((max jobCount expectedJobCount : ℤ) : ℚ) ∧
    otherImageProgress 2 1 3 0.5 = 2.5 / 3 := by
  have h1 : (1 : ℤ) ≤ max jobCount expectedJobCount :=
    le_trans hexp (le_max_right _ _)
  constructor
  · simp only [otherImageProgress]
    rw [max_eq_right h1]
  · norm_num [otherImageProgress, min_def, max_def]

/-- Witness for C4: the claim's concrete instance, via the theorem at
`job_no = 2, job_count = 1, EXPECTED_JOB_COUNT = 3, overall_fraction = 0.5`. -/
theorem effectiveStageCountFormulaWitness :
    otherImageProgress 2 1 3 0.5 = 2.5 / 3 :=
  (effectiveStageCountFormula 2 1 3 0.5 (by decide)).2

/-- Claim C5: first-image stale-index guard.  When the current image index is
0, the reported overall fraction is below 0.05 and the reported stage index is
positive, the stage index is treated as 0 before any further progress
computation: the guard returns 0, and the full normalizer computes the same
value as with stage index 0, for every pipeline. -/
theorem firstImageStaleGuard (currentBatchIndex : ℕ) (apiProgress : ℚ) (jobNo : ℤ)
    (hidx : currentBatchIndex = 0) (hprog : apiProgress < 0.05) (hjob : 0 < jobNo) :
    guardJobNo currentBatchIndex apiProgress jobNo = 0 ∧
    (∀ (task : Task) (expectedJobCount jobCount : ℤ),
      imageProgress task currentBatchIndex expectedJobCount apiProgress jobNo jobCount =
        imageProgress task currentBatchIndex expectedJobCount apiProgress 0 jobCount) := by
  have hg : guardJobNo currentBatchIndex apiProgress jobNo = 0 := by
    unfold guardJobNo
    rw [if_pos ⟨hidx, hprog, hjob⟩]
  have hg0 : guardJobNo currentBatchIndex apiProgress 0 = 0 := by
    unfold guardJobNo
    split <;> rfl
  exact ⟨hg, fun task e jc => by simp only [imageProgress, hg, hg0]⟩

/-- Witness for C5: `current_image_index = 0, overall_fraction = 0.02,
stage_index = 1` forces the stage index to 0. -/
theorem firstImageStaleGuardWitness :
    guardJobNo 0 0.02 1 = 0 :=
  (firstImageStaleGuard 0 0.02 1 rfl (by norm_num) one_pos).1

/-! ## Generation Orchestrator (`cleanup_sketch`, `fix_face_only`)

The two batch entry points share one loop structure: initialize the global
batch state, bail out early when no source image was given, then issue one
`img2img` request per batch index, appending decoded images and their
metadata strings to growing lists and yielding the partial lists after each
success; cancellation (an external reset of `CURRENT_TASK` to `None`) is
observed at the top of each iteration; any non-200 response raises, which the
`except` handler turns into a terminal yield of empty lists.  The external
service and the asynchronous cancellation are modelled by `GenEnv`; images and
metadata strings are abstracted to numeric tokens. -/

/-- The shared progress-tracking globals: `CURRENT_TASK`,
`CURRENT_BATCH_INDEX`, `TOTAL_BATCH_COUNT`, `EXPECTED_JOB_COUNT`,
`LAST_BATCH_INDEX`, `LAST_PROGRESS`. -/
structure BatchState where
  currentTask : Option Task
  currentBatchIndex : ℕ
  totalBatchCount : ℕ
  expectedJobCount : ℤ
  lastBatchIndex : ℤ
  lastProgress : ℚ
  deriving DecidableEq

/-- The ADetailer mode selected in the cleanup tab
(なし / 顔のみ / 手のみ / 顔と手). -/
inductive AdMode where
  | noAd
  | faceOnly
  | handOnly
  | faceAndHand
  deriving DecidableEq

/-- `EXPECTED_JOB_COUNT` as set by `cleanup_sketch` from the ADetailer mode:
1 without correction, 2 for face-only or hand-only, 3 for face-and-hand. -/
def expectedJobsFor : AdMode → ℤ
  | AdMode.noAd => 1
  | AdMode.faceOnly => 2
  | AdMode.handOnly => 2
  | AdMode.faceAndHand => 3

/-- The batch-state initialization performed unconditionally at the top of
`cleanup_sketch`: every progress global is overwritten, whatever the
previous state was. -/
def startCleanupState (batchCount : ℕ) (adMode : AdMode) (_prev : BatchState) :
    BatchState :=
  { currentTask := some Task.cleanup
    currentBatchIndex := 0
    totalBatchCount := batchCount
    expectedJobCount := expectedJobsFor adMode
    lastBatchIndex := -1
    lastProgress := 0 }

/-- The batch-state initialization performed unconditionally at the top of
`fix_face_only` (`EXPECTED_JOB_COUNT = 2`). -/
def startFaceFixState (batchCount : ℕ) (_prev : BatchState) : BatchState :=
  { currentTask := some Task.faceFix
    currentBatchIndex := 0
    totalBatchCount := batchCount
    expectedJobCount := 2
    lastBatchIndex := -1
    lastProgress := 0 }

/-- One image of a generation response: the decoded/saved image and its
`infotexts` metadata entry, both abstracted to numeric tokens. -/
structure RespImage where
  data : ℕ
  info : ℕ
  deriving DecidableEq

/-- One response of the `img2img` endpoint: HTTP status, whether a 422 body
names the missing ADetailer script, and the image list of the body. -/
structure Response where
  status : ℕ
  adetailerMissing : Bool
  images : List RespImage
  deriving DecidableEq

/-- The external world one batch run interacts with: the response to the
request of each batch index, and whether the cancellation control has reset
`CURRENT_TASK` to `None` before the check at the top of that iteration. -/
structure GenEnv where
  resp : ℕ → Response
  cancelBefore : ℕ → Bool

/-- The seed put into the payload of batch index `i`: `-1` is passed
unchanged, any other base seed is incremented by `i`. -/
def reqSeed (seed : ℤ) (i : ℕ) : ℤ :=
  if seed = -1 then -1 else seed + i

/-- The mutable loop data of one batch run: the growing `gen_images` and
`parameters_list`, the log of issued requests `(batch index, seed sent)`, and
the per-iteration yields (snapshots of the two lists). -/
structure LoopAcc where
  genImages : List ℕ
  paramsList : List ℕ
  requests : List (ℕ × ℤ)
  yields : List (List ℕ × List ℕ)
  deriving DecidableEq

/-- How one batch run ended. -/
inductive ExitKind where
  | completed
  | cancelled
  | errored
  | noInput
  deriving DecidableEq

/-- The effect of one successful loop iteration (`res.status_code == 200`):
the request is issued, the response's images and their metadata are appended,
and the new partial lists are yielded. -/
def stepSucc (env : GenEnv) (seed : ℤ) (i : ℕ) (acc : LoopAcc) : LoopAcc :=
  { genImages := acc.genImages ++ (env.resp i).images.map RespImage.data
    paramsList := acc.paramsList ++ (env.resp i).images.map RespImage.info
    requests := acc.requests ++ [(i, reqSeed seed i)]
    yields := acc.yields ++
      [(acc.genImages ++ (env.resp i).images.map RespImage.data,
        acc.paramsList ++ (env.resp i).images.map RespImage.info)] }

/-- The request loop `for i in range(batch_count)` shared by `cleanup_sketch`
and `fix_face_only`, running iterations `i, i+1, ...` while `n` iterations
remain: break when `CURRENT_TASK` was reset (cancellation), raise on a 422
naming ADetailer and on every other non-200 status (both reach the `except`
handler), append and yield on 200. -/
def runIters (env : GenEnv) (seed : ℤ) : ℕ → ℕ → LoopAcc → LoopAcc × ExitKind
  | _, 0, acc => (acc, ExitKind.completed)
  | i, Nat.succ n, acc =>
    if env.cancelBefore i then (acc, ExitKind.cancelled)
    else if (env.resp i).status = 422 ∧ (env.resp i).adetailerMissing then
      ({ acc with requests := acc.requests ++ [(i, reqSeed seed i)] }, ExitKind.errored)
    else if (env.resp i).status = 200 then
      runIters env seed (i + 1) n (stepSucc env seed i acc)
    else
      ({ acc with requests := acc.requests ++ [(i, reqSeed seed i)] }, ExitKind.errored)

/-- The value of the `parameters_list` slot of a yield: the handlers yield a
list of metadata strings, except the missing-image early exit which yields the
empty string. -/
inductive ParamsOut where
  | strVal (s : String)
  | listVal (l : List ℕ)
  deriving DecidableEq

/-- The observable outcome of one batch run: the terminal yield's image list,
parameters value and trigger-button interactivity, the final `CURRENT_TASK`,
the issued requests, the per-iteration yields, and how the run ended. -/
structure RunResult where
  finalImages : List ℕ
  finalParams : ParamsOut
  finalTask : Option Task
  requests : List (ℕ × ℤ)
  midYields : List (List ℕ × List ℕ)
  exit : ExitKind
  triggerInteractive : Bool
  deriving DecidableEq

/-- One full batch run after the state initialization: the `image_path is
None` early exit yields `[], ""` with the trigger re-enabled; otherwise the
request loop runs, the `except` handler turns an error into a terminal yield
of empty lists, and completion or cancellation reaches the terminal yield of
the grown lists.  Every path ends with `CURRENT_TASK = None`. -/
def runGenerationBatch (env : GenEnv) (imagePresent : Bool) (batchCount : ℕ)
    (seed : ℤ) : RunResult :=
  if imagePresent then
    match runIters env seed 0 batchCount ⟨[], [], [], []⟩ with
    | (acc, ExitKind.errored) =>
      { finalImages := []
        finalParams := ParamsOut.listVal []
        finalTask := none
        requests := acc.requests
        midYields := acc.yields
        exit := ExitKind.errored
        triggerInteractive := true }
    | (acc, ex) =>
      { finalImages := acc.genImages
        finalParams := ParamsOut.listVal acc.paramsList
        finalTask := none
        requests := acc.requests
        midYields := acc.yields
        exit := ex
        triggerInteractive := true }
  else
    { finalImages := []
      finalParams := ParamsOut.strVal ""
      finalTask := none
      requests := []
      midYields := []
      exit := ExitKind.noInput
      triggerInteractive := true }

/-- Shallow embedding of `cleanup_sketch`: the unconditional state
initialization followed by the shared batch run. -/
def cleanup_sketch (env : GenEnv) (imagePresent : Bool) (batchCount : ℕ)
    (adMode : AdMode) (seed : ℤ) (st : BatchState) : BatchState × RunResult :=
  (startCleanupState batchCount adMode st,
   runGenerationBatch env imagePresent batchCount seed)

/-- Shallow embedding of `fix_face_only`: the unconditional state
initialization followed by the shared batch run. -/
def fix_face_only (env : GenEnv) (imagePresent : Bool) (batchCount : ℕ)
    (seed : ℤ) (st : BatchState) : BatchState × RunResult :=
  (startFaceFixState batchCount st,
   runGenerationBatch env imagePresent batchCount seed)

/-! ## Closed forms for a run of successful iterations -/

/-- The images produced by iterations `i, ..., i+k-1`. -/
def seg (env : GenEnv) : ℕ → ℕ → List ℕ
  | _, 0 => []
  | i, Nat.succ k => (env.resp i).images.map RespImage.data ++ seg env (i + 1) k

/-- The metadata entries produced by iterations `i, ..., i+k-1`. -/
def infoSeg (env : GenEnv) : ℕ → ℕ → List ℕ
  | _, 0 => []
  | i, Nat.succ k => (env.resp i).images.map RespImage.info ++ infoSeg env (i + 1) k

/-- The requests issued by iterations `i, ..., i+k-1`. -/
def reqSeg (seed : ℤ) : ℕ → ℕ → List (ℕ × ℤ)
  | _, 0 => []
  | i, Nat.succ k => (i, reqSeed seed i) :: reqSeg seed (i + 1) k

/-- The yields of iterations `i, ..., i+k-1`, starting from partial lists
`g` and `p`: each yield is the cumulative snapshot after that iteration. -/
def yieldSeg (env : GenEnv) : List ℕ → List ℕ → ℕ → ℕ → List (List ℕ × List ℕ)
  | _, _, _, 0 => []
  | g, p, i, Nat.succ k =>
    (g ++ (env.resp i).images.map RespImage.data,
     p ++ (env.resp i).images.map RespImage.info) ::
      yieldSeg env (g ++ (env.resp i).images.map RespImage.data)
        (p ++ (env.resp i).images.map RespImage.info) (i + 1) k

/-- Running `k` cancellation-free, all-200 iterations from any accumulator
just appends the closed-form segments and moves on. -/
theorem runIters_prefix (env : GenEnv) (seed : ℤ) :
    ∀ (k i n : ℕ) (acc : LoopAcc), k ≤ n →
      (∀ j, j < k → env.cancelBefore (i + j) = false ∧ (env.resp (i + j)).status = 200) →
      runIters env seed i n acc =
        runIters env seed (i + k) (n - k)
          ⟨acc.genImages ++ seg env i k, acc.paramsList ++ infoSeg env i k,
           acc.requests ++ reqSeg seed i k,
           acc.yields ++ yieldSeg env acc.genImages acc.paramsList i k⟩ := by
  intro k
  induction k with
  | zero =>
    intro i n acc _ _
    simp [seg, infoSeg, reqSeg, yieldSeg]
  | succ k ih =>
    intro i n acc hk hok
    cases n with
    | zero => exact absurd hk (by omega)
    | succ m =>
      have h0 := hok 0 (Nat.succ_pos k)
      rw [Nat.add_zero] at h0
      have hstep : runIters env seed i (m + 1) acc =
          runIters env seed (i + 1) m (stepSucc env seed i acc) := by
        rw [runIters]
        rw [if_neg (by simp [h0.1]), if_neg (by simp [h0.2]), if_pos h0.2]
      rw [hstep]
      rw [ih (i + 1) m (stepSucc env seed i acc) (by omega)
        (fun j hj => by
          have := hok (j + 1) (by omega)
          rwa [show i + (j + 1) = i + 1 + j by omega] at this)]
      have harg : i + 1 + k = i + (k + 1) := by omega
      have hn : m - k = m + 1 - (k + 1) := by omega
      rw [harg, hn]
      have hgen : (stepSucc env seed i acc).genImages ++ seg env (i + 1) k =
          acc.genImages ++ seg env i (k + 1) := by
        simp [stepSucc, seg, List.append_assoc]
      have hpar : (stepSucc env seed i acc).paramsList ++ infoSeg env (i + 1) k =
          acc.paramsList ++ infoSeg env i (k + 1) := by
        simp [stepSucc, infoSeg, List.append_assoc]
      have hreq : (stepSucc env seed i acc).requests ++ reqSeg seed (i + 1) k =
          acc.requests ++ reqSeg seed i (k + 1) := by
        simp [stepSucc, reqSeg, List.append_assoc]
      have hyld : (stepSucc env seed i acc).yields ++
          yieldSeg env (stepSucc env seed i acc).genImages
            (stepSucc env seed i acc).paramsList (i + 1) k =
          acc.yields ++ yieldSeg env acc.genImages acc.paramsList i (k + 1) := by
        simp [stepSucc, yieldSeg, List.append_assoc]
      rw [hgen, hpar, hreq, hyld]

/-! ## Claims about the Orchestrator -/

/-- Claim C7: cooperative cancellation at image boundaries.  If the first `k`
iterations succeed and the cancellation flag is observed at the start of
iteration `k`, the run stops without issuing any further request: exactly the
requests of iterations `0..k-1` were issued, the terminal yield returns
exactly the images (and metadata) of those `k` iterations, the trigger is
re-enabled, and `CURRENT_TASK` ends `None` (Idle). -/
theorem cancellationAtImageBoundary (env : GenEnv) (seed : ℤ) (n k : ℕ)
    (hk : k < n)
    (hok : ∀ j, j < k → env.cancelBefore j = false ∧ (env.resp j).status = 200)
    (hcancel : env.cancelBefore k = true) :
    runGenerationBatch env true n seed =
      { finalImages := seg env 0 k
        finalParams := ParamsOut.listVal (infoSeg env 0 k)
        finalTask := none
        requests := reqSeg seed 0 k
        midYields := yieldSeg env [] [] 0 k
        exit := ExitKind.cancelled
        triggerInteractive := true } := by
  have hpre := runIters_prefix env seed k 0 n ⟨[], [], [], []⟩ (le_of_lt hk)
    (fun j hj => by simpa using hok j hj)
  obtain ⟨m, hm⟩ : ∃ m, n - k = m + 1 := ⟨n - k - 1, by omega⟩
  simp only [Nat.zero_add, List.nil_append] at hpre
  rw [hm] at hpre
  have hrun : runIters env seed 0 n ⟨[], [], [], []⟩ =
      (⟨seg env 0 k, infoSeg env 0 k, reqSeg seed 0 k, yieldSeg env [] [] 0 k⟩,
       ExitKind.cancelled) := by
    rw [hpre, runIters, if_pos hcancel]
  unfold runGenerationBatch
  rw [hrun]
  rfl

/-- Witness for C7: a batch of 5 with cancellation observed after image 2
completes and before image 3 starts returns exactly 2 results, issues exactly
2 requests, and ends Idle. -/
theorem cancellationAtImageBoundaryWitness :
    (runGenerationBatch ⟨fun i => ⟨200, false, [⟨100 + i, 200 + i⟩]⟩,
        fun i => decide (2 ≤ i)⟩ true 5 (-1)).finalImages.length = 2 ∧
    (runGenerationBatch ⟨fun i => ⟨200, false, [⟨100 + i, 200 + i⟩]⟩,
        fun i => decide (2 ≤ i)⟩ true 5 (-1)).requests.length = 2 ∧
    (runGenerationBatch ⟨fun i => ⟨200, false, [⟨100 + i, 200 + i⟩]⟩,
        fun i => decide (2 ≤ i)⟩ true 5 (-1)).finalTask = none := by
  have h := cancellationAtImageBoundary
    ⟨fun i => ⟨200, false, [⟨100 + i, 200 + i⟩]⟩, fun i => decide (2 ≤ i)⟩
    (-1) 5 2 (by omega) (by decide) (by decide)
  rw [h]
  refine ⟨?_, ?_, rfl⟩ <;> simp [seg, reqSeg]

/-- The environment of the C6 counterexample: the request of image 0 succeeds
and produces image token 10 with metadata token 20, the request of image 1
fails with HTTP 500; no cancellation. -/
def envC6 : GenEnv :=
  ⟨fun i => if i = 0 then ⟨200, false, [⟨10, 20⟩]⟩ else ⟨500, false, []⟩,
   fun _ => false⟩

/-- Counterexample to claim C6: with the first request succeeding and the
second failing with a non-200 status, the run errors out, but the terminal
yield is the empty list — the image produced by iteration 0 (visible in the
incremental yield) is not returned in the batch's final result. -/
theorem partialResultsDroppedOnFailure :
    (runGenerationBatch envC6 true 2 (-1)).exit = ExitKind.errored ∧
    (runGenerationBatch envC6 true 2 (-1)).midYields = [([10], [20])] ∧
    (runGenerationBatch envC6 true 2 (-1)).finalImages = [] ∧
    (runGenerationBatch envC6 true 2 (-1)).finalParams = ParamsOut.listVal [] := by
  refine ⟨?_, ?_, ?_, ?_⟩ <;> rfl

/-- Claim C6, amended: if the first `k` iterations succeed and iteration `k`
draws a non-200 response (without cancellation), the batch aborts immediately
— exactly the requests of iterations `0..k` were issued — and `CURRENT_TASK`
is cleared; the images already produced were surfaced by the incremental
per-iteration yields, but the terminal yield of the error handler is the
empty list: partial results are dropped from the batch's final result. -/
theorem abortOnHttpFailure (env : GenEnv) (seed : ℤ) (n k : ℕ)
    (hk : k < n)
    (hok : ∀ j, j < k → env.cancelBefore j = false ∧ (env.resp j).status = 200)
    (hnc : env.cancelBefore k = false)
    (hfail : (env.resp k).status ≠ 200) :
    runGenerationBatch env true n seed =
      { finalImages := []
        finalParams := ParamsOut.listVal []
        finalTask := none
        requests := reqSeg seed 0 k ++ [(k, reqSeed seed k)]
        midYields := yieldSeg env [] [] 0 k
        exit := ExitKind.errored
        triggerInteractive := true } := by
  have hpre := runIters_prefix env seed k 0 n ⟨[], [], [], []⟩ (le_of_lt hk)
    (fun j hj => by simpa using hok j hj)
  obtain ⟨m, hm⟩ : ∃ m, n - k = m + 1 := ⟨n - k - 1, by omega⟩
  simp only [Nat.zero_add, List.nil_append] at hpre
  rw [hm] at hpre
  have hc : ¬(env.cancelBefore k = true) := by simp [hnc]
  have hrun : runIters env seed 0 n ⟨[], [], [], []⟩ =
      (⟨seg env 0 k, infoSeg env 0 k, reqSeg seed 0 k ++ [(k, reqSeed seed k)],
        yieldSeg env [] [] 0 k⟩, ExitKind.errored) := by
    by_cases h422 : (env.resp k).status = 422 ∧ (env.resp k).adetailerMissing
    · rw [hpre, runIters, if_neg hc, if_pos h422]
    · rw [hpre, runIters, if_neg hc, if_neg h422, if_neg hfail]
  unfold runGenerationBatch
  rw [hrun]
  rfl

/-- Witness for the amended C6, at the counterexample input: first request
succeeds, second fails with 500; the terminal yield is empty although the
incremental yield after image 0 carried the produced image. -/
theorem abortOnHttpFailureWitness :
    runGenerationBatch envC6 true 2 (-1) =
      { finalImages := []
        finalParams := ParamsOut.listVal []
        finalTask := none
        requests := [(0, -1), (1, -1)]
        midYields := [([10], [20])]
        exit := ExitKind.errored
        triggerInteractive := true } := by
  have h := abortOnHttpFailure envC6 (-1) 2 1 (by omega) (by decide) rfl (by decide)
  rw [h]
  rfl

/-- Every request logged by the loop carries the seed policy's value. -/
theorem runIters_seed_invariant (env : GenEnv) (seed : ℤ) :
    ∀ (n i : ℕ) (acc : LoopAcc),
      (∀ p ∈ acc.requests, p.2 = reqSeed seed p.1) →
      ∀ p ∈ (runIters env seed i n acc).1.requests, p.2 = reqSeed seed p.1 := by
  intro n
  induction n with
  | zero =>
    intro i acc hacc p hp
    exact hacc p hp
  | succ m ih =>
    intro i acc hacc p hp
    rw [runIters] at hp
    by_cases hc : env.cancelBefore i = true
    · rw [if_pos hc] at hp
      exact hacc p hp
    · rw [if_neg hc] at hp
      by_cases h422 : (env.resp i).status = 422 ∧ (env.resp i).adetailerMissing
      · rw [if_pos h422] at hp
        rcases List.mem_append.mp hp with h | h
        · exact hacc p h
        · rw [List.mem_singleton.mp h]
      · rw [if_neg h422] at hp
        by_cases h200 : (env.resp i).status = 200
        · rw [if_pos h200] at hp
          refine ih (i + 1) (stepSucc env seed i acc) (fun q hq => ?_) p hp
          rcases List.mem_append.mp hq with h | h
          · exact hacc q h
          · rw [List.mem_singleton.mp h]
        · rw [if_neg h200] at hp
          rcases List.mem_append.mp hp with h | h
          · exact hacc p h
          · rw [List.mem_singleton.mp h]

/-- Claim C8: seed policy.  Every request issued by a batch run carries the
base seed plus the in-batch index when the base seed is not `-1`, and `-1`
unchanged when it is. -/
theorem seedIncrementPolicy (env : GenEnv) (imagePresent : Bool) (n : ℕ)
    (seed : ℤ) (p : ℕ × ℤ)
    (hp : p ∈ (runGenerationBatch env imagePresent n seed).requests) :
    (seed = -1 → p.2 = -1) ∧ (seed ≠ -1 → p.2 = seed + (p.1 : ℤ)) := by
  have hmem : p ∈ (runIters env seed 0 n ⟨[], [], [], []⟩).1.requests := by
    unfold runGenerationBatch at hp
    cases imagePresent with
    | false => simp at hp
    | true =>
      rw [if_pos rfl] at hp
      rcases hrun : runIters env seed 0 n ⟨[], [], [], []⟩ with ⟨acc, ex⟩
      rw [hrun] at hp
      cases ex <;> exact hp
  have hval := runIters_seed_invariant env seed n 0 ⟨[], [], [], []⟩
    (fun q hq => absurd hq (List.not_mem_nil q)) p hmem
  unfold reqSeed at hval
  constructor
  · intro hs
    rwa [if_pos hs] at hval
  · intro hs
    rwa [if_neg hs] at hval

/-- Witness for C8: base seed 100, batch of 3 — the request for image 0 is in
the request log and carries seed `100 + 0`; the theorem applied to it gives
the incremented-seed equation. -/
theorem seedIncrementPolicyWitness :
    ((0, (100 : ℤ)) ∈ (runGenerationBatch
        ⟨fun i => ⟨200, false, [⟨i, i⟩]⟩, fun _ => false⟩ true 3 100).requests) ∧
    (100 : ℤ) = 100 + ((0 : ℕ) : ℤ) :=
  ⟨by decide,
   (seedIncrementPolicy ⟨fun i => ⟨200, false, [⟨i, i⟩]⟩, fun _ => false⟩
     true 3 100 (0, 100) (by decide)).2 (by decide)⟩

/-- A batch state in the middle of a running cleanup batch, used as the
concrete input of the C9 counterexample. -/
def stRunning : BatchState :=
  { currentTask := some Task.cleanup
    currentBatchIndex := 1
    totalBatchCount := 4
    expectedJobCount := 2
    lastBatchIndex := 1
    lastProgress := 40 }

/-- Counterexample to claim C9: starting a face-fix batch while a cleanup
batch is active (`active_task` non-`None`) is not rejected — the entry-point
initialization runs and overwrites the running batch's state. -/
theorem secondBatchStartOverwrites :
    stRunning.currentTask = some Task.cleanup ∧
    ((fix_face_only ⟨fun i => ⟨200, false, [⟨i, i⟩]⟩, fun _ => false⟩
        true 3 (-1) stRunning).1).currentTask = some Task.faceFix ∧
    (fix_face_only ⟨fun i => ⟨200, false, [⟨i, i⟩]⟩, fun _ => false⟩
        true 3 (-1) stRunning).1 ≠ stRunning := by
  refine ⟨rfl, rfl, fun h => ?_⟩
  have := congrArg BatchState.currentTask h
  simp [fix_face_only, startFaceFixState, stRunning] at this

/-- Claim C9, amended: a second batch start while one is active is not
rejected — both entry points unconditionally reinitialize the shared batch
state (the result does not depend on the previous state at all), installing
the new task and resetting every progress counter; single-flight is enforced
only by the UI disabling the trigger buttons during a run, outside these
functions. -/
theorem batchStartUnconditional (batchCount : ℕ) (adMode : AdMode)
    (st st' : BatchState) :
    startCleanupState batchCount adMode st = startCleanupState batchCount adMode st' ∧
    startFaceFixState batchCount st = startFaceFixState batchCount st' ∧
    (startCleanupState batchCount adMode st).currentTask = some Task.cleanup ∧
    (startFaceFixState batchCount st).currentTask = some Task.faceFix ∧
    (startCleanupState batchCount adMode st).currentBatchIndex = 0 ∧
    (startFaceFixState batchCount st).currentBatchIndex = 0 ∧
    (startCleanupState batchCount adMode st).lastProgress = 0 ∧
    (startCleanupState batchCount adMode st).lastBatchIndex = -1 ∧
    (startCleanupState batchCount adMode st).totalBatchCount = batchCount := by
  exact ⟨rfl, rfl, rfl, rfl, rfl, rfl, rfl, rfl, rfl⟩

/-- A trivial environment and an idle state, inputs of the C10 theorems. -/
def envIdle : GenEnv :=
  ⟨fun _ => ⟨200, false, []⟩, fun _ => false⟩

/-- The idle batch state. -/
def stIdle : BatchState :=
  { currentTask := none
    currentBatchIndex := 0
    totalBatchCount := 1
    expectedJobCount := 1
    lastBatchIndex := -1
    lastProgress := 0 }

/-- Counterexample to claim C10: on a `None` source image the early-exit
yield's parameters slot is the empty string `""`, not an empty list — the
claim's "empty result and parameter lists" does not hold of the second slot. -/
theorem noneImageParamsNotList :
    (cleanup_sketch envIdle false 3 AdMode.noAd (-1) stIdle).2.finalParams =
      ParamsOut.strVal "" ∧
    (cleanup_sketch envIdle false 3 AdMode.noAd (-1) stIdle).2.finalParams ≠
      ParamsOut.listVal [] ∧
    (fix_face_only envIdle false 3 (-1) stIdle).2.finalParams ≠
      ParamsOut.listVal [] := by
  refine ⟨rfl, fun h => ?_, fun h => ?_⟩ <;> exact ParamsOut.noConfusion h

/-- Claim C10, amended: if the source image input is `None`, both entry
points clear the active task back to `None` and yield an empty result list
and an empty-string parameters value (not an empty list) with the trigger
control re-enabled, without issuing any generation request. -/
theorem noneImageEarlyExit (env : GenEnv) (batchCount : ℕ) (adMode : AdMode)
    (seed : ℤ) (st : BatchState) :
    (cleanup_sketch env false batchCount adMode seed st).2 =
      { finalImages := []
        finalParams := ParamsOut.strVal ""
        finalTask := none
        requests := []
        midYields := []
        exit := ExitKind.noInput
        triggerInteractive := true } ∧
    (fix_face_only env false batchCount seed st).2 =
      { finalImages := []
        finalParams := ParamsOut.strVal ""
        finalTask := none
        requests := []
        midYields := []
        exit := ExitKind.noInput
        triggerInteractive := true } :=
  ⟨rfl, rfl⟩

end FggArt
